import Mathlib

/-! Shallow embedding of the Akademi community bot request-lifecycle
services, translated from `src/services/communication_service.py`,
`src/services/help_service.py` and
`src/repositories/communication_repository.py`, together with theorems
settling the specification claims about them.

External Python calls that may raise are modelled as `Except String α`
(`Except.error msg` stands for a raised exception whose `str(e)` is
`msg`); the outcome of every external call an operation makes is
supplied up front in an environment record, so each embedded operation
is a pure function of its environment, the store and its arguments. -/

/-- Outcome of a Python call that may raise: `Except.error msg` models a
raised exception carrying `str(e) = msg`. -/
abbrev PyResult (α : Type) := Except String α

/-- Whether the pattern list is an initial segment of the other list. -/
def charsStartWith : List Char → List Char → Bool
  | [], _ => true
  | _ :: _, [] => false
  | a :: as, b :: bs => a == b && charsStartWith as bs

/-- Whether the pattern list occurs contiguously inside the other list. -/
def charsContain (p : List Char) : List Char → Bool
  | [] => charsStartWith p []
  | c :: cs => charsStartWith p (c :: cs) || charsContain p cs

/-- The Python `pat in s` test on strings: `pat` occurs as a contiguous
substring of `s`. -/
def strContains (s pat : String) : Bool := charsContain pat.toList s.toList

/-- The Python `str.lower()` call, character by character. -/
def strLower (s : String) : String := String.mk (s.toList.map Char.toLower)

/-- One row of the `communication_requests` table as `CommunicationService`
creates and mutates it; columns beyond the creation payload stay `none`
until written. -/
structure CommRequest where
  requester_id : String
  topic : String
  description : String
  channel_id : String
  status : String
  communication_channel_id : Option String := none
  message_ts : Option String := none
  closed_at : Option String := none
  deriving DecidableEq

/-- The `communication_requests` table, keyed by request id. -/
abbrev CommStore := String → Option CommRequest

/-- Modelled from the spec: `BaseRepository.create` (the repository base
class is not under `src/`; spec section 6 gives
`RequestStore.create(fields) → id`) — inserts the row under the freshly
generated id. -/
def commInsert (db : CommStore) (id : String) (r : CommRequest) : CommStore :=
  fun k => if k = id then some r else db k

/-- The dict of column values handed to `repo.update` for a
communication row; `none` means the column is absent from the dict. -/
structure CommPatch where
  status : Option String := none
  communication_channel_id : Option String := none
  message_ts : Option String := none
  closed_at : Option String := none
  deriving DecidableEq

/-- Overwrites exactly the columns present in the patch. -/
def applyCommPatch (p : CommPatch) (r : CommRequest) : CommRequest :=
  { r with
    status := p.status.getD r.status
    communication_channel_id :=
      (p.communication_channel_id.map some).getD r.communication_channel_id
    message_ts := (p.message_ts.map some).getD r.message_ts
    closed_at := (p.closed_at.map some).getD r.closed_at }

/-- Modelled from the spec: `BaseRepository.update` (not under `src/`;
spec section 6 gives `RequestStore.update(id, partialFields) → bool`) —
a per-column SQL UPDATE keyed by id with no expected-prior-status guard,
returning whether a row matched. -/
def commUpdate (db : CommStore) (id : String) (p : CommPatch) : CommStore × Bool :=
  match db id with
  | none => (db, false)
  | some r => (fun k => if k = id then some (applyCommPatch p r) else db k, true)

/-- `CommunicationRepository.mark_closed`: closes a row setting both the
status and `closed_at` (present in the repository but never called by
the services under `src/`). -/
def markClosed (db : CommStore) (id : String) (now : String) : CommStore × Bool :=
  commUpdate db id { status := some "closed", closed_at := some now }

/-- The `{success, message, channel_id?}` dict
`join_communication_channel` answers with. -/
structure JoinResult where
  success : Bool
  message : String
  channel_id : Option String := none
  deriving DecidableEq

/-- Outcomes of the external calls `join_communication_channel` makes:
the user lookup (`get_by_slack_id`, may raise `DatabaseError`), the
channel invite, and the in-channel notice (either of the latter two may
raise a platform error whose text is the payload). -/
structure JoinEnv where
  userLookup : PyResult (Option String) := .ok none
  invite : PyResult Unit := .ok ()
  notice : PyResult Unit := .ok ()

/-- The `except` branch of the invite block in
`join_communication_channel`: an already-in-channel error is converted
into success, anything else into a retry suggestion. -/
def joinErrorRecovery (chanId e : String) : JoinResult :=
  if strContains (strLower e) "already_in_channel"
      || strContains (strLower e) "already_in team" then
    { success := true
      message := "✅ Zaten kanaldasınız! <#" ++ chanId ++ "> kanalına gidebilirsiniz."
      channel_id := some chanId }
  else
    { success := false, message := "❌ Kanala katılamadınız. Lütfen tekrar deneyin." }

/-- `CommunicationService.join_communication_channel`, translated
statement by statement. The store is passed through unchanged because
the source performs no repository write in this handler; the outer
`except` answers the generic failure message. -/
def joinCommunicationChannel (env : JoinEnv) (db : CommStore)
    (communication_id user_id : String) : CommStore × JoinResult :=
  match db communication_id with
  | none => (db, { success := false, message := "❌ İletişim isteği bulunamadı." })
  | some req =>
    if req.status = "closed" then
      (db, { success := false, message := "❌ Bu iletişim kanalı kapatılmış." })
    else
      match req.communication_channel_id with
      | none => (db, { success := false, message := "❌ İletişim kanalı bulunamadı." })
      | some chanId =>
        match env.userLookup with
        | .error _ => (db, { success := false, message := "Kanala katılırken bir hata oluştu." })
        | .ok _ =>
          match env.invite with
          | .error e => (db, joinErrorRecovery chanId e)
          | .ok _ =>
            match env.notice with
            | .error e => (db, joinErrorRecovery chanId e)
            | .ok _ =>
              (db, { success := true
                     message := "✅ Kanala katıldınız! <#" ++ chanId ++ "> kanalına gidebilirsiniz."
                     channel_id := some chanId })

/-- Outcomes of the external calls `_close_communication_channel` makes:
the archive call (a `bool`, or a raise), whether the status update
raises, and the best-effort closure notice (its outcome is swallowed by
its own `except` and never reaches the store). -/
structure CloseEnv where
  archive : PyResult Bool := .ok true
  updFails : Bool := false
  postNotice : PyResult Unit := .ok ()

/-- `CommunicationService._close_communication_channel`: archive the
session channel; only on a truthy archive result mark the row
`status = "closed"` (no `closed_at`, no prior-status guard), then post
the closure notice best-effort. Every exception is caught and logged —
the handler never raises; an exception leaves the store as it was. -/
def closeCommunicationChannel (env : CloseEnv) (db : CommStore)
    (communication_id communication_channel_id : String) : CommStore :=
  match env.archive with
  | .error _ => db
  | .ok success =>
    if success then
      if env.updFails then db
      else (commUpdate db communication_id { status := some "closed" }).1
    else db

/-- Externally visible side effects of `create_communication_request`,
one constructor per call site, recorded in the order the source attempts
them. -/
inductive CEvent
  | persistCreate | provisionChannel | inviteAttempt | welcomeMsg
  | persistChannelId | scheduleExpiry | postAd | persistTs
  deriving DecidableEq

/-- The dict returned by `chat.post_message`: the `ok` flag and the
message timestamp handle. -/
structure PostResponse where
  ok : Bool
  ts : Option String := none
  deriving DecidableEq

/-- One entry of the member list returned by `user_manager.list_users`
(only the keys `_get_workspace_owner` reads). -/
structure Member where
  id : Option String := none
  is_owner : Bool := false
  is_admin : Bool := false

/-- The response dict of `user_manager.list_users`. -/
structure UsersResponse where
  ok : Bool
  members : List Member := []

/-- `_get_workspace_owner` (identical in both services): the id of the
first member flagged owner, else of the first flagged admin, else
`none`; a raise from the listing call is caught and yields `none`. -/
def getWorkspaceOwner (resp : PyResult UsersResponse) : Option String :=
  match resp with
  | .error _ => none
  | .ok r =>
    if r.ok then
      match r.members.find? (fun m => m.is_owner) with
      | some m => m.id
      | none =>
        match r.members.find? (fun m => m.is_admin) with
        | some m => m.id
        | none => none
    else none

/-- Outcomes of the external calls `create_communication_request` makes,
in source order: the freshly generated row id, whether the initial
`repo.create` raises, the requester-name lookup, the channel creation
(as a function of the derived channel name), the member listing used for
the stakeholder lookup, the invite, the welcome post into the session
channel, whether persisting the channel id raises, whether a cron client
was injected, the expiry-job scheduling, the advertisement post into the
origin channel, and whether persisting its message timestamp raises. -/
structure CreateEnv where
  newId : String
  createFails : Bool := false
  userLookup : PyResult (Option String) := .ok none
  createChannel : String → PyResult String := fun _ => .error "channel create failed"
  usersResp : PyResult UsersResponse := .ok { ok := false }
  invite : PyResult Unit := .ok ()
  welcomePost : PyResult Unit := .ok ()
  updChanFails : Bool := false
  hasCron : Bool := true
  cronAdd : PyResult Unit := .ok ()
  adPost : PyResult PostResponse := .ok { ok := false }
  updTsFails : Bool := false

/-- The inner `try` block of `create_communication_request` (channel
provisioning, stakeholder lookup, invites, welcome message, channel-id
persistence, expiry-job scheduling): any raise inside it is caught by
the inner `except`, which abandons the block and leaves
`communication_channel_id = None`. Returns the store, the events
attempted inside the block, and the channel id the block ended with.
The invite call's own `try` swallows its outcome (`env.invite`), and the
scheduling `try` swallows `env.cronAdd`; neither touches the store. -/
def provisionBlock (env : CreateEnv) (db1 : CommStore)
    (communication_id requester_id : String) :
    CommStore × List CEvent × Option String :=
  match env.createChannel ("iletisim-" ++ communication_id.take 8) with
  | .error _ => (db1, [], none)
  | .ok chanId =>
    let ownerId := getWorkspaceOwner env.usersResp
    let inviteUsers : List String :=
      requester_id ::
        (match ownerId with
         | some o => if o ≠ requester_id then [o] else []
         | none => [])
    let tr2 : List CEvent :=
      if inviteUsers.isEmpty then [CEvent.provisionChannel]
      else [CEvent.provisionChannel, CEvent.inviteAttempt]
    match env.welcomePost with
    | .error _ => (db1, tr2 ++ [CEvent.welcomeMsg], none)
    | .ok _ =>
      let tr3 := tr2 ++ [CEvent.welcomeMsg]
      if env.updChanFails then (db1, tr3, none)
      else
        let db2 := (commUpdate db1 communication_id
          { communication_channel_id := some chanId }).1
        let tr4 := tr3 ++ [CEvent.persistChannelId]
        if env.hasCron then (db2, tr4 ++ [CEvent.scheduleExpiry], some chanId)
        else (db2, tr4, some chanId)

/-- `CommunicationService.create_communication_request`, translated
statement by statement. Returns the store, the ordered trace of
attempted side effects, and either the new request id or the raised
error: the outer `except` re-raises every uncaught failure as the single
`CemilBotError` with this message text. -/
def createCommunicationRequest (env : CreateEnv) (db : CommStore)
    (requester_id channel_id topic description : String) :
    CommStore × List CEvent × PyResult String :=
  if env.createFails then
    (db, [], .error "İletişim isteği oluşturulamadı")
  else
    let communication_id := env.newId
    let db1 := commInsert db communication_id
      { requester_id := requester_id, topic := topic, description := description
        channel_id := channel_id, status := "open" }
    match env.userLookup with
    | .error _ => (db1, [CEvent.persistCreate], .error "İletişim isteği oluşturulamadı")
    | .ok _userData =>
      let (dbC, trC, _communication_channel_id) :=
        provisionBlock env db1 communication_id requester_id
      let tr := CEvent.persistCreate :: trC
      match env.adPost with
      | .error _ => (dbC, tr ++ [CEvent.postAd], .error "İletişim isteği oluşturulamadı")
      | .ok resp =>
        let trA := tr ++ [CEvent.postAd]
        if resp.ok then
          if env.updTsFails then (dbC, trA, .error "İletişim isteği oluşturulamadı")
          else
            ((commUpdate dbC communication_id { message_ts := resp.ts }).1,
              trA ++ [CEvent.persistTs], .ok communication_id)
        else (dbC, trA, .ok communication_id)

/-- First position of an event in a trace. -/
def evIdx (e : CEvent) : List CEvent → Option Nat
  | [] => none
  | x :: xs => if x = e then some 0 else (evIdx e xs).map (· + 1)

/-- Whether `a` occurs in the trace strictly before `b` (both must
occur). -/
def evBefore (tr : List CEvent) (a b : CEvent) : Bool :=
  match evIdx a tr, evIdx b tr with
  | some i, some j => decide (i < j)
  | _, _ => false

/-- One row of the `help_requests` table as `HelpService` creates and
mutates it; columns beyond the creation payload stay `none` until
written. -/
structure HelpRequest where
  requester_id : String
  topic : String
  description : String
  channel_id : String
  status : String
  helper_id : Option String := none
  help_channel_id : Option String := none
  message_ts : Option String := none
  closed_at : Option String := none
  deriving DecidableEq

/-- The `help_requests` table, keyed by request id. -/
abbrev HelpStore := String → Option HelpRequest

/-- The dict of column values handed to `repo.update` for a help row;
`none` means the column is absent from the dict. -/
structure HelpPatch where
  status : Option String := none
  helper_id : Option String := none
  help_channel_id : Option String := none
  message_ts : Option String := none
  closed_at : Option String := none
  deriving DecidableEq

/-- Overwrites exactly the columns present in the patch. -/
def applyHelpPatch (p : HelpPatch) (r : HelpRequest) : HelpRequest :=
  { r with
    status := p.status.getD r.status
    helper_id := (p.helper_id.map some).getD r.helper_id
    help_channel_id := (p.help_channel_id.map some).getD r.help_channel_id
    message_ts := (p.message_ts.map some).getD r.message_ts
    closed_at := (p.closed_at.map some).getD r.closed_at }

/-- Modelled from the spec: `BaseRepository.update` for the help table
(not under `src/`; same RequestStore contract as `commUpdate`). -/
def helpUpdate (db : HelpStore) (id : String) (p : HelpPatch) : HelpStore × Bool :=
  match db id with
  | none => (db, false)
  | some r => (fun k => if k = id then some (applyHelpPatch p r) else db k, true)

/-- User-facing text chosen for a non-open help request by the status →
text dict in `offer_help` (the last line is the dict's default, used for
any unrecognized status). -/
def helpStatusText (s : String) : String :=
  if s = "in_progress" then "Bu yardım isteğine zaten biri yardım ediyor."
  else if s = "resolved" then "Bu yardım isteği çözüldü."
  else if s = "closed" then "Bu yardım isteği kapatıldı."
  else "Bu yardım isteği artık aktif değil."

/-- The `{success, message, dm_channel_id?}` dict `offer_help` answers
with. -/
structure OfferResult where
  success : Bool
  message : String
  dm_channel_id : Option String := none
  deriving DecidableEq

/-- Outcomes of the external calls `offer_help` makes after its write,
in source order: the two profile lookups (step 5, may raise
`DatabaseError`), the guarded invite and notice into the help channel
(step 6 — their outcomes are swallowed by that block's own `except` and
never influence store or result), the two direct-conversation opens and
their messages (steps 7–9, unguarded), and the guarded advertisement
update (step 10, also swallowed). -/
structure OfferEnv where
  lookupRequester : PyResult (Option String) := .ok none
  lookupHelper : PyResult (Option String) := .ok none
  inviteHelper : PyResult Unit := .ok ()
  postHelpChannel : PyResult Unit := .ok ()
  openDm : PyResult String := .ok "D1"
  postDm : PyResult Unit := .ok ()
  openRequesterDm : PyResult String := .ok "D2"
  postRequesterDm : PyResult Unit := .ok ()
  chatUpdate : PyResult Unit := .ok ()

/-- The generic answer of `offer_help`'s outer `except`. -/
def offerFailure : OfferResult :=
  { success := false, message := "Yardım teklifi verilirken bir hata oluştu." }

/-- Steps 5–10 of `offer_help` (everything after the write): none of
these calls touches the store, so they only determine the answered dict
— the success dict when every unguarded call goes through, the generic
failure dict as soon as one of them raises (the guarded step-6 and
step-10 blocks swallow their own outcomes). -/
def offerNotify (env : OfferEnv) (requester_id : String) : OfferResult :=
  match env.lookupRequester with
  | .error _ => offerFailure
  | .ok _ =>
    match env.lookupHelper with
    | .error _ => offerFailure
    | .ok _ =>
      match env.openDm with
      | .error _ => offerFailure
      | .ok dmId =>
        match env.postDm with
        | .error _ => offerFailure
        | .ok _ =>
          match env.openRequesterDm with
          | .error _ => offerFailure
          | .ok _ =>
            match env.postRequesterDm with
            | .error _ => offerFailure
            | .ok _ =>
              { success := true
                message := "✅ Yardım bağlantısı kuruldu! <@" ++ requester_id
                  ++ "> ile DM kanalınız açıldı."
                dm_channel_id := some dmId }

/-- `HelpService.offer_help`, translated statement by statement: read
the request (step 1), reject on a non-open status (step 2) or a
self-claim (step 3), otherwise write status = in_progress and the helper
id through a plain unconditional `repo.update` (step 4 — no
compare-and-set), then run the notification steps; an uncaught raise
there is answered by the generic failure message while the already
persisted write stays in place. -/
def offerHelp (env : OfferEnv) (db : HelpStore) (help_id helper_id : String) :
    HelpStore × OfferResult :=
  match db help_id with
  | none => (db, { success := false, message := "❌ Yardım isteği bulunamadı." })
  | some req =>
    if req.status ≠ "open" then
      (db, { success := false, message := "❌ " ++ helpStatusText req.status })
    else if req.requester_id = helper_id then
      (db, { success := false, message := "❌ Kendi yardım isteğinize yardım edemezsiniz." })
    else
      ((helpUpdate db help_id
        { status := some "in_progress", helper_id := some helper_id }).1,
       offerNotify env req.requester_id)

/-- The database read `offer_help` starts with (step 1), taken in
isolation so that interleavings with a concurrent claim can be
expressed. -/
def claimRead (db : HelpStore) (help_id : String) : Option HelpRequest := db help_id

/-- The rest of `offer_help`'s persistence logic, run against a
previously taken snapshot: the status and self-claim checks evaluate the
snapshot (steps 2–3), and when they pass, the write is an unconditional
`repo.update` against the current store (step 4). Returns the store and
whether the claim went through. -/
def claimWrite (db : HelpStore) (help_id helper_id : String)
    (snap : Option HelpRequest) : HelpStore × Bool :=
  match snap with
  | none => (db, false)
  | some req =>
    if req.status ≠ "open" then (db, false)
    else if req.requester_id = helper_id then (db, false)
    else ((helpUpdate db help_id
      { status := some "in_progress", helper_id := some helper_id }).1, true)

/-- Sequencing the two phases back to back coincides with the store
effect and the success bit of the monolithic `offer_help` under
non-failing notification calls, justifying the phase split used to model
the database-level interleaving of two concurrent claims. -/
theorem offerHelp_phase_decomposition (db : HelpStore) (id h : String) :
    (offerHelp {} db id h).1 = (claimWrite db id h (claimRead db id)).1 ∧
    (offerHelp {} db id h).2.success = (claimWrite db id h (claimRead db id)).2 := by
  unfold offerHelp claimWrite claimRead
  cases db id with
  | none => exact ⟨rfl, rfl⟩
  | some req =>
    by_cases h1 : req.status ≠ "open"
    · simp [h1]
    · by_cases h2 : req.requester_id = h
      · simp [h1, h2]
      · simp [h1, h2, offerNotify, offerFailure]

/-- C9: joining a non-closed communication request with a provisioned
session channel, when the gateway's invite reports the
already-in-channel condition, yields a success = true outcome and leaves
the stored request — hence its status — unchanged. -/
theorem C9_join_already_in_channel_succeeds
    (env : JoinEnv) (db : CommStore) (id uid : String) (req : CommRequest)
    (chanId : String) (u : Option String) (e : String)
    (hget : db id = some req)
    (hstatus : req.status ≠ "closed")
    (hchan : req.communication_channel_id = some chanId)
    (hu : env.userLookup = .ok u)
    (hinv : env.invite = .error e)
    (halready : strContains (strLower e) "already_in_channel" = true) :
    (joinCommunicationChannel env db id uid).2.success = true ∧
    (joinCommunicationChannel env db id uid).1 = db := by
  unfold joinCommunicationChannel
  rw [hget]
  simp only [hstatus, if_false, hchan, hu, hinv]
  unfold joinErrorRecovery
  rw [halready]
  simp

/-- The request, store and environment the C9 witness evaluates at. -/
def joinReqW : CommRequest :=
  { requester_id := "U1", topic := "t", description := "d", channel_id := "C0"
    status := "open", communication_channel_id := some "CCH9" }

/-- Store holding just the C9 witness request. -/
def joinDbW : CommStore := fun k => if k = "r9" then some joinReqW else none

/-- Environment where the invite raises the already-in-channel error. -/
def joinEnvW : JoinEnv :=
  { userLookup := .ok none, invite := .error "already_in_channel", notice := .ok () }

/-- Witness for C9 at a concrete request, store and environment. -/
theorem C9_witness :
    (joinCommunicationChannel joinEnvW joinDbW "r9" "U2").2.success = true ∧
    (joinCommunicationChannel joinEnvW joinDbW "r9" "U2").1 = joinDbW :=
  C9_join_already_in_channel_succeeds joinEnvW joinDbW "r9" "U2" joinReqW "CCH9"
    none "already_in_channel" rfl (by decide) rfl rfl rfl (by decide)

/-- The closed, never-provisioned request the C10 counterexample uses. -/
def c10Req : CommRequest :=
  { requester_id := "U1", topic := "t", description := "d", channel_id := "C0"
    status := "closed" }

/-- Store holding just the C10 counterexample request. -/
def c10Db : CommStore := fun k => if k = "r10" then some c10Req else none

/-- C10 counterexample: on a request whose session channel was never
provisioned but whose status is closed, join answers with the
channel-closed message — not the channel-not-found message the claim
promises for every never-provisioned request. -/
theorem C10_counterexample :
    (joinCommunicationChannel {} c10Db "r10" "U2").2.message
        = "❌ Bu iletişim kanalı kapatılmış." ∧
    "❌ Bu iletişim kanalı kapatılmış." ≠ "❌ İletişim kanalı bulunamadı." :=
  ⟨rfl, by decide⟩

/-- C10 (amended): for every communication request whose session channel
was never provisioned, a join is a structured failure that never mutates
the store; when the status is moreover not closed, the message is the
channel-not-found one (a closed never-provisioned request gets the
channel-closed message instead, the closed check coming first). -/
theorem C10_join_unprovisioned_rejected
    (env : JoinEnv) (db : CommStore) (id uid : String) (req : CommRequest)
    (hget : db id = some req)
    (hchan : req.communication_channel_id = none) :
    (req.status ≠ "closed" →
      (joinCommunicationChannel env db id uid).2
        = { success := false, message := "❌ İletişim kanalı bulunamadı." }) ∧
    (joinCommunicationChannel env db id uid).2.success = false ∧
    (joinCommunicationChannel env db id uid).1 = db := by
  unfold joinCommunicationChannel
  rw [hget]
  by_cases hs : req.status = "closed"
  · simp [hs]
  · simp [hs, hchan]

/-- The open, never-provisioned request the C10 witness uses. -/
def c10ReqW : CommRequest :=
  { requester_id := "U1", topic := "t", description := "d", channel_id := "C0"
    status := "open" }

/-- Store holding just the C10 witness request. -/
def c10DbW : CommStore := fun k => if k = "r10w" then some c10ReqW else none

/-- Witness for the amended C10 at a concrete open request without a
session channel. -/
theorem C10_witness :
    (joinCommunicationChannel {} c10DbW "r10w" "U2").2
        = { success := false, message := "❌ İletişim kanalı bulunamadı." } ∧
    (joinCommunicationChannel {} c10DbW "r10w" "U2").2.success = false ∧
    (joinCommunicationChannel {} c10DbW "r10w" "U2").1 = c10DbW :=
  ⟨(C10_join_unprovisioned_rejected {} c10DbW "r10w" "U2" c10ReqW rfl rfl).1 (by decide),
   (C10_join_unprovisioned_rejected {} c10DbW "r10w" "U2" c10ReqW rfl rfl).2⟩

/-- The open request the C2 evaluation starts from. -/
def c2Req : CommRequest :=
  { requester_id := "U1", topic := "t", description := "d", channel_id := "C0"
    status := "open", communication_channel_id := some "CCH2" }

/-- Store holding just the C2 request. -/
def c2Db : CommStore := fun k => if k = "r2" then some c2Req else none

/-- C2 at the failing input: when the archive call fails (the channel is
already archived or deleted), the expiry handler leaves the request open
instead of closing it; and even on a successful archive it writes only
the status, leaving `closed_at` null — there is no idempotence guard on
the prior status and no `closed_at` write anywhere in this path. -/
theorem C2_code_eval :
    ((closeCommunicationChannel { archive := .ok false } c2Db "r2" "CCH2") "r2").map
        (fun r => r.status) = some "open" ∧
    ((closeCommunicationChannel { archive := .ok true } c2Db "r2" "CCH2") "r2").map
        (fun r => (r.status, r.closed_at)) = some ("closed", none) :=
  ⟨rfl, rfl⟩

/-- The freshly created request the C4 evaluation starts from (exactly
the creation payload `create_communication_request` persists). -/
def c4Db : CommStore :=
  commInsert (fun _ => none) "r4"
    { requester_id := "U1", topic := "t", description := "d", channel_id := "C0"
      status := "open" }

/-- C4 at the failing input: after the expiry handler runs on an open
request with a successful archive, the stored row has status closed and
a null `closed_at`, violating the claimed if-and-only-if invariant (the
repository's `mark_closed`, which would maintain it, is never called by
the services). -/
theorem C4_code_eval :
    ((closeCommunicationChannel { archive := .ok true } c4Db "r4" "CCH4") "r4").map
        (fun r => decide ((r.closed_at ≠ none) ↔ r.status = "closed")) = some false := by
  rfl

/-- The open request both racing claims of the C1 evaluation target. -/
def c1Req : HelpRequest :=
  { requester_id := "U1", topic := "t", description := "d", channel_id := "C0"
    status := "open" }

/-- Store holding just the C1 request. -/
def c1Db : HelpStore := fun k => if k = "h1" then some c1Req else none

/-- C1 at the failing input: interleaving two claims with distinct
helpers as read-A, read-B, write-A, write-B — each phase being the
read respectively the checked unconditional write `offer_help` actually
performs — lets both claims succeed, the second silently overwriting the
first helper: there is no compare-and-set guard, so at-most-one-winner
fails. -/
theorem C1_code_eval :
    (claimWrite c1Db "h1" "UA" (claimRead c1Db "h1")).2 = true ∧
    (claimWrite (claimWrite c1Db "h1" "UA" (claimRead c1Db "h1")).1 "h1" "UB"
        (claimRead c1Db "h1")).2 = true ∧
    ((claimWrite (claimWrite c1Db "h1" "UA" (claimRead c1Db "h1")).1 "h1" "UB"
        (claimRead c1Db "h1")).1 "h1").map (fun r => (r.status, r.helper_id))
      = some ("in_progress", some "UB") :=
  ⟨rfl, rfl, rfl⟩

/-- When `offer_help` answers success, the request existed, was open,
was not a self-claim, and the store is exactly the one-row overwrite the
unconditional update produced. -/
theorem offerHelp_success_shape (env : OfferEnv) (db : HelpStore) (id h : String)
    (hsucc : (offerHelp env db id h).2.success = true) :
    ∃ req, db id = some req ∧ req.status = "open" ∧ req.requester_id ≠ h ∧
      (offerHelp env db id h).1
        = fun k => if k = id then
            some (applyHelpPatch { status := some "in_progress", helper_id := some h } req)
          else db k := by
  unfold offerHelp at hsucc ⊢
  cases hdb : db id with
  | none => rw [hdb] at hsucc; simp at hsucc
  | some req =>
    rw [hdb] at hsucc
    by_cases h1 : req.status ≠ "open"
    · simp [h1] at hsucc
    · by_cases h2 : req.requester_id = h
      · simp [h1, h2] at hsucc
      · refine ⟨req, rfl, by simpa using h1, h2, ?_⟩
        simp [h1, h2, helpUpdate, hdb]

/-- C7 counterexample: claiming a closed help request is answered with
the request-closed message, which differs from the no-longer-active
message the claim assigns to closed and resolved requests (that text is
only the dict's fallback for unrecognized statuses). -/
theorem C7_counterexample :
    (offerHelp {} (fun k => if k = "h7" then
        some { requester_id := "U1", topic := "t", description := "d"
               channel_id := "C0", status := "closed" }
      else none) "h7" "U2").2.message = "❌ Bu yardım isteği kapatıldı." ∧
    "❌ Bu yardım isteği kapatıldı." ≠ "❌ Bu yardım isteği artık aktif değil." :=
  ⟨rfl, by decide⟩

/-- C7 (amended): for every help request whose status is not open, a
claim returns Rejected carrying the status-specific message — for
in_progress the someone-is-already-helping text, for resolved the
request-resolved text, for closed the request-closed text, and the
no-longer-active text only for any other non-open status — and leaves
the store unchanged; moreover once a claim has succeeded, every
subsequent claim on the same request is Rejected with the
already-being-helped message. -/
theorem C7_claim_non_open_rejected
    (env env2 : OfferEnv) (db : HelpStore) (id h h2 : String) (req : HelpRequest)
    (hget : db id = some req) :
    (req.status ≠ "open" →
      offerHelp env db id h
        = (db, { success := false, message := "❌ " ++ helpStatusText req.status })) ∧
    ((offerHelp env db id h).2.success = true →
      (offerHelp env2 (offerHelp env db id h).1 id h2).2
        = { success := false
            message := "❌ Bu yardım isteğine zaten biri yardım ediyor." }) := by
  constructor
  · intro hs
    unfold offerHelp
    rw [hget]
    simp [hs]
  · intro hsucc
    obtain ⟨req', hget', _hopen, _hne, hstore⟩ :=
      offerHelp_success_shape env db id h hsucc
    rw [hstore]
    unfold offerHelp
    simp only [if_pos rfl]
    have hstat : (applyHelpPatch
        { status := some "in_progress", helper_id := some h } req').status
        = "in_progress" := rfl
    simp [hstat, helpStatusText]

/-- The open request of the C7 witness. -/
def c7ReqW : HelpRequest :=
  { requester_id := "U1", topic := "t", description := "d", channel_id := "C0"
    status := "open" }

/-- Store holding just the C7 witness request. -/
def c7DbW : HelpStore := fun k => if k = "h7w" then some c7ReqW else none

/-- Witness for the amended C7: a successful first claim makes the next
claim come back with the already-being-helped message. -/
theorem C7_witness :
    (offerHelp {} (offerHelp {} c7DbW "h7w" "U2").1 "h7w" "U3").2
      = { success := false
          message := "❌ Bu yardım isteğine zaten biri yardım ediyor." } :=
  (C7_claim_non_open_rejected {} {} c7DbW "h7w" "U2" "U3" c7ReqW rfl).2 (by decide)

/-- C8: a claim whose helper id equals the requester id is Rejected with
no store change, whatever the current status of the request (a non-open
status rejects at the status check, an open one at the self-claim
check). -/
theorem C8_self_claim_rejected
    (env : OfferEnv) (db : HelpStore) (id h : String) (req : HelpRequest)
    (hget : db id = some req) (hself : req.requester_id = h) :
    (offerHelp env db id h).1 = db ∧ (offerHelp env db id h).2.success = false := by
  unfold offerHelp
  rw [hget]
  by_cases hs : req.status ≠ "open"
  · simp [hs]
  · simp [hs, hself]

/-- The open request of the C8 witness, claimed by its own requester. -/
def c8ReqW : HelpRequest :=
  { requester_id := "U1", topic := "t", description := "d", channel_id := "C0"
    status := "open" }

/-- Store holding just the C8 witness request. -/
def c8DbW : HelpStore := fun k => if k = "h8" then some c8ReqW else none

/-- Witness for C8 at a concrete open request claimed by its
requester. -/
theorem C8_witness :
    (offerHelp {} c8DbW "h8" "U1").1 = c8DbW ∧
    (offerHelp {} c8DbW "h8" "U1").2.success = false :=
  C8_self_claim_rejected {} c8DbW "h8" "U1" c8ReqW rfl rfl

/-- A column update never changes the topic or the description of any
row (no patch carries those columns). -/
theorem commUpdate_keeps_topic (db : CommStore) (id k : String) (p : CommPatch) :
    (((commUpdate db id p).1 k).map (fun row => (row.topic, row.description)))
      = ((db k).map (fun row => (row.topic, row.description))) := by
  unfold commUpdate
  cases hdb : db id with
  | none => rfl
  | some r =>
    by_cases hk : k = id
    · subst hk; simp [hdb, applyCommPatch]
    · simp [hk]

/-- The provisioning block never changes the topic or the description of
any row (its only write is the channel-id column). -/
theorem provisionBlock_keeps_topic (env : CreateEnv) (db1 : CommStore)
    (cid r k : String) :
    (((provisionBlock env db1 cid r).1 k).map (fun row => (row.topic, row.description)))
      = ((db1 k).map (fun row => (row.topic, row.description))) := by
  unfold provisionBlock
  cases env.createChannel ("iletisim-" ++ cid.take 8) with
  | error e => rfl
  | ok chanId =>
    cases env.welcomePost with
    | error e => simp
    | ok u =>
      by_cases huc : env.updChanFails
      · simp [huc]
      · by_cases hc : env.hasCron <;> simp [huc, hc, commUpdate_keeps_topic]

/-- As long as the initial persistence, the requester-name lookup and
the advertisement steps go through, the creation returns the new id —
for every outcome of the provisioning-block steps. -/
theorem create_ok_of_good_env
    (env : CreateEnv) (db : CommStore) (r c t d : String)
    (resp : PostResponse) (u : Option String)
    (hcf : env.createFails = false)
    (hu : env.userLookup = .ok u)
    (had : env.adPost = .ok resp)
    (hts : env.updTsFails = false) :
    (createCommunicationRequest env db r c t d).2.2 = .ok env.newId := by
  unfold createCommunicationRequest
  rw [hcf]
  simp only [Bool.false_eq_true, if_false]
  rw [hu]
  rcases hpb : provisionBlock env
      (commInsert db env.newId
        { requester_id := r, topic := t, description := d
          channel_id := c, status := "open" }) env.newId r with ⟨dbC, trC, cc⟩
  rw [had]
  by_cases hro : resp.ok
  · simp [hro, hts]
  · simp [hro]

/-- The environment of the C3 counterexample: base persistence and every
provisioning step succeed, only the advertisement post raises. -/
def c3Env : CreateEnv :=
  { newId := "cid3", createChannel := fun _ => .ok "CCH3"
    adPost := .error "platform unavailable" }

/-- C3 counterexample: the base request is persisted (it is in the store
afterwards), yet a failure while posting the public advertisement makes
the whole operation raise instead of returning the id — the
advertisement steps are outside every inner `try`. -/
theorem C3_counterexample :
    (createCommunicationRequest c3Env (fun _ => none) "U1" "C0" "t" "d").2.2
      = .error "İletişim isteği oluşturulamadı" ∧
    ((createCommunicationRequest c3Env (fun _ => none) "U1" "C0" "t" "d").1 "cid3").isSome
      = true :=
  ⟨rfl, rfl⟩

/-- C3 (amended): once the initial persistence succeeds, failures in
channel provisioning, stakeholder resolution, invitations, the welcome
message, channel-id persistence and expiry scheduling are caught and
logged and never make the operation raise — the new id is still
returned; but a failure in the requester-name lookup, in posting the
public advertisement, or in recording its message reference does
propagate (re-raised as the generic CemilBotError, as is a step-1
persistence failure — no distinct PersistenceError exists). -/
theorem C3_create_degraded_success
    (env : CreateEnv) (db : CommStore) (r c t d : String)
    (resp : PostResponse) (u : Option String)
    (hcf : env.createFails = false)
    (hu : env.userLookup = .ok u)
    (had : env.adPost = .ok resp)
    (hts : env.updTsFails = false) :
    (createCommunicationRequest env db r c t d).2.2 = .ok env.newId :=
  create_ok_of_good_env env db r c t d resp u hcf hu had hts

/-- The all-successful environment used by several witnesses. -/
def cwEnv : CreateEnv :=
  { newId := "cw", createChannel := fun _ => .ok "CCHW"
    adPost := .ok { ok := true, ts := some "171.001" } }

/-- Witness for the amended C3 at a concrete all-successful
environment. -/
theorem C3_witness :
    (createCommunicationRequest cwEnv (fun _ => none) "U1" "C0" "t" "d").2.2
      = .ok cwEnv.newId :=
  C3_create_degraded_success cwEnv (fun _ => none) "U1" "C0" "t" "d"
    { ok := true, ts := some "171.001" } none rfl rfl rfl rfl

/-- The environment of the C5 counterexample: persistence succeeds,
provisioning fails, the advertisement post returns a non-ok response. -/
def c5Env : CreateEnv := { newId := "cid5" }

/-- C5 counterexample: with an empty topic and an empty description the
operation performs its side effects and returns the new id — no
validation happens and no ValidationError is raised; the empty topic is
persisted. -/
theorem C5_counterexample :
    (createCommunicationRequest c5Env (fun _ => none) "U1" "C0" "" "").2.2
      = .ok "cid5" ∧
    ((createCommunicationRequest c5Env (fun _ => none) "U1" "C0" "" "").1 "cid5").map
        (fun row => (row.topic, row.description)) = some ("", "") :=
  ⟨rfl, rfl⟩

/-- C5 (amended): `create_communication_request` performs no
non-emptiness validation of topic or description: under the same
conditions in which any creation returns normally, the call with empty
topic and empty description also returns the new id and persists the row
with the empty fields — there is no ValidationError anywhere in the
operation. -/
theorem C5_no_validation
    (env : CreateEnv) (db : CommStore) (r c : String)
    (resp : PostResponse) (u : Option String)
    (hcf : env.createFails = false)
    (hu : env.userLookup = .ok u)
    (had : env.adPost = .ok resp)
    (hts : env.updTsFails = false) :
    (createCommunicationRequest env db r c "" "").2.2 = .ok env.newId ∧
    ((createCommunicationRequest env db r c "" "").1 env.newId).map
        (fun row => (row.topic, row.description)) = some ("", "") := by
  constructor
  · exact create_ok_of_good_env env db r c "" "" resp u hcf hu had hts
  · unfold createCommunicationRequest
    rw [hcf]
    simp only [Bool.false_eq_true, if_false]
    rw [hu]
    have hbase :
        ((provisionBlock env
            (commInsert db env.newId
              { requester_id := r, topic := "", description := ""
                channel_id := c, status := "open" }) env.newId r).1 env.newId).map
          (fun row => (row.topic, row.description)) = some ("", "") := by
      rw [provisionBlock_keeps_topic]
      simp [commInsert]
    rcases hpb : provisionBlock env
        (commInsert db env.newId
          { requester_id := r, topic := "", description := ""
            channel_id := c, status := "open" }) env.newId r with ⟨dbC, trC, cc⟩
    rw [hpb] at hbase
    rw [had]
    by_cases hro : resp.ok
    · simp [hro, hts, commUpdate_keeps_topic, hbase]
    · simp [hro, hbase]

/-- The environment of the C5 witness: everything succeeds. -/
def c5EnvW : CreateEnv :=
  { newId := "cw5", createChannel := fun _ => .ok "CCHW5"
    adPost := .ok { ok := true, ts := some "171.005" } }

/-- Witness for the amended C5 at a concrete all-successful
environment. -/
theorem C5_witness :
    (createCommunicationRequest c5EnvW (fun _ => none) "U1" "C0" "" "").2.2
      = .ok c5EnvW.newId ∧
    ((createCommunicationRequest c5EnvW (fun _ => none) "U1" "C0" "" "").1
        c5EnvW.newId).map (fun row => (row.topic, row.description)) = some ("", "") :=
  C5_no_validation c5EnvW (fun _ => none) "U1" "C0"
    { ok := true, ts := some "171.005" } none rfl rfl rfl rfl

/-- The environment of the C6 counterexample: a fully successful
creation. -/
def c6Env : CreateEnv :=
  { newId := "cid6", createChannel := fun _ => .ok "CCH6"
    adPost := .ok { ok := true, ts := some "171.006" } }

/-- C6 counterexample: in a fully successful creation the one-shot
expiry job is armed strictly before the public advertisement is posted,
so the claimed persist–provision–advertise–schedule order does not hold
on the code. -/
theorem C6_counterexample :
    (createCommunicationRequest c6Env (fun _ => none) "U1" "C0" "t" "d").2.2
      = .ok "cid6" ∧
    evBefore (createCommunicationRequest c6Env (fun _ => none) "U1" "C0" "t" "d").2.1
        CEvent.scheduleExpiry CEvent.postAd = true ∧
    evBefore (createCommunicationRequest c6Env (fun _ => none) "U1" "C0" "t" "d").2.1
        CEvent.postAd CEvent.scheduleExpiry = false := by
  refine ⟨rfl, ?_, ?_⟩ <;> decide

/-- C6 (amended): in every successful creation in which the session
channel is provisioned and a cron client is present, the effect order is
persistence of the base request, then channel provisioning, then arming
of the one-shot expiry job, and only then the posting of the public
advertisement (scheduling precedes the advertisement, not the other way
round). -/
theorem C6_effect_order
    (env : CreateEnv) (db : CommStore) (r c t d : String)
    (chanId : String) (resp : PostResponse) (u : Option String)
    (hcf : env.createFails = false)
    (hu : env.userLookup = .ok u)
    (hcc : env.createChannel ("iletisim-" ++ env.newId.take 8) = .ok chanId)
    (hw : env.welcomePost = .ok ())
    (huc : env.updChanFails = false)
    (hcron : env.hasCron = true)
    (had : env.adPost = .ok resp) :
    evBefore (createCommunicationRequest env db r c t d).2.1
        CEvent.persistCreate CEvent.provisionChannel = true ∧
    evBefore (createCommunicationRequest env db r c t d).2.1
        CEvent.provisionChannel CEvent.scheduleExpiry = true ∧
    evBefore (createCommunicationRequest env db r c t d).2.1
        CEvent.scheduleExpiry CEvent.postAd = true := by
  unfold createCommunicationRequest provisionBlock
  rw [hcf]
  simp only [Bool.false_eq_true, if_false]
  rw [hu, hcc, hw]
  simp only [huc, Bool.false_eq_true, if_false, hcron, if_true]
  rw [had]
  simp only [List.isEmpty_cons, Bool.false_eq_true, if_false]
  by_cases hro : resp.ok
  · by_cases hts : env.updTsFails <;> simp [hro, hts] <;> decide
  · simp only [hro, Bool.false_eq_true, if_false]
    decide

/-- Witness for the amended C6 at a concrete all-successful
environment. -/
theorem C6_witness :
    evBefore (createCommunicationRequest cwEnv (fun _ => none) "U1" "C0" "t" "d").2.1
        CEvent.persistCreate CEvent.provisionChannel = true ∧
    evBefore (createCommunicationRequest cwEnv (fun _ => none) "U1" "C0" "t" "d").2.1
        CEvent.provisionChannel CEvent.scheduleExpiry = true ∧
    evBefore (createCommunicationRequest cwEnv (fun _ => none) "U1" "C0" "t" "d").2.1
        CEvent.scheduleExpiry CEvent.postAd = true :=
  C6_effect_order cwEnv (fun _ => none) "U1" "C0" "t" "d" "CCHW"
    { ok := true, ts := some "171.001" } none rfl rfl rfl rfl rfl rfl rfl
